import Mathlib

/-
Verification of the knowledge-base orchestrator and the text-to-speech
configuration of the voice-rag-assistant repository, via a shallow embedding
of `src/rag/knowledge_base.py` and `src/tts/text_to_speech.py`.

The external vector store (ChromaDB) is modelled as a list of entries whose
retrieval orders the stored entries by a similarity score (a parameter of the
embedding, since the embedding model is external) and truncates to the
requested result count.  The external generation service (Anthropic) is
modelled as a function from request records to answer strings; the query
operation additionally returns the list of generation requests it issued, so
that "the service is invoked exactly once / not at all" is expressible.
-/

namespace VoiceRag

/-! ### Decimal rendering of naturals (Python `str(int)` / f-string `{n}`) -/

/-- Little-endian decimal digits of `n`, with explicit fuel so the recursion is
structural (the fuel is always instantiated to at least `n`). -/
def decDigitsAux : Nat → Nat → List Nat
  | _, 0 => []
  | 0, _ + 1 => []
  | fuel + 1, n + 1 => ((n + 1) % 10) :: decDigitsAux fuel ((n + 1) / 10)

/-- Decimal string of a natural number, as produced by Python `str(int)` inside
the f-strings `f"doc_{...}"` and `f"[Source {...}]"` of `knowledge_base.py`. -/
def pyStrNat (n : Nat) : String :=
  if n = 0 then "0" else String.mk (((decDigitsAux n n).map Nat.digitChar).reverse)

/-- Value of a little-endian decimal digit list. -/
def decVal : List Nat → Nat
  | [] => 0
  | d :: ds => d + 10 * decVal ds

theorem decVal_decDigitsAux : ∀ fuel n : Nat, n ≤ fuel → decVal (decDigitsAux fuel n) = n := by
  intro fuel
  induction fuel with
  | zero =>
    intro n hn
    have : n = 0 := Nat.le_zero.mp hn
    subst this
    rfl
  | succ f ih =>
    intro n hn
    match n with
    | 0 => rfl
    | m + 1 =>
      have hdiv : (m + 1) / 10 ≤ f := by
        have := Nat.div_lt_self (Nat.succ_pos m) (by omega : 1 < 10)
        omega
      show ((m + 1) % 10) + 10 * decVal (decDigitsAux f ((m + 1) / 10)) = m + 1
      rw [ih _ hdiv]
      exact Nat.mod_add_div (m + 1) 10

theorem decDigitsAux_lt_ten : ∀ fuel n : Nat, ∀ d ∈ decDigitsAux fuel n, d < 10 := by
  intro fuel
  induction fuel with
  | zero =>
    intro n d hd
    match n with
    | 0 => simp [decDigitsAux] at hd
    | _ + 1 => simp [decDigitsAux] at hd
  | succ f ih =>
    intro n d hd
    match n with
    | 0 => simp [decDigitsAux] at hd
    | m + 1 =>
      simp only [decDigitsAux, List.mem_cons] at hd
      rcases hd with h | h
      · subst h; exact Nat.mod_lt _ (by omega)
      · exact ih _ _ h

theorem digitChar_inj_lt : ∀ d, d < 10 → ∀ e, e < 10 → Nat.digitChar d = Nat.digitChar e → d = e := by
  decide

theorem map_digitChar_inj : ∀ l₁ l₂ : List Nat, (∀ d ∈ l₁, d < 10) → (∀ d ∈ l₂, d < 10) →
    l₁.map Nat.digitChar = l₂.map Nat.digitChar → l₁ = l₂ := by
  intro l₁
  induction l₁ with
  | nil =>
    intro l₂ _ _ h
    cases l₂ with
    | nil => rfl
    | cons b bs => simp at h
  | cons a as ih =>
    intro l₂ h₁ h₂ h
    cases l₂ with
    | nil => simp at h
    | cons b bs =>
      simp only [List.map_cons, List.cons.injEq] at h
      have ha : a = b :=
        digitChar_inj_lt a (h₁ a (List.mem_cons_self a as)) b (h₂ b (List.mem_cons_self b bs)) h.1
      have hs : as = bs :=
        ih bs (fun d hd => h₁ d (List.mem_cons_of_mem a hd))
          (fun d hd => h₂ d (List.mem_cons_of_mem b hd)) h.2
      rw [ha, hs]

theorem pyStrNat_injective : Function.Injective pyStrNat := by
  intro m n h
  unfold pyStrNat at h
  by_cases hm : m = 0 <;> by_cases hn : n = 0
  · omega
  · -- "0" equals the rendering of the nonzero n: impossible
    exfalso
    rw [if_pos hm, if_neg hn] at h
    have h0 : ("0" : String) = String.mk ['0'] := rfl
    rw [h0] at h
    injection h with hdata
    have hrev : (decDigitsAux n n).map Nat.digitChar = ['0'] := by
      have := congrArg List.reverse hdata
      simpa using this.symm
    have hd : decDigitsAux n n = [0] := by
      apply map_digitChar_inj _ _ (decDigitsAux_lt_ten n n) (by intro d hd; simp at hd; omega)
      simpa [Nat.digitChar] using hrev
    have := decVal_decDigitsAux n n (Nat.le_refl n)
    rw [hd] at this
    simp [decVal] at this
    omega
  · exfalso
    rw [if_neg hm, if_pos hn] at h
    have h0 : ("0" : String) = String.mk ['0'] := rfl
    rw [h0] at h
    injection h with hdata
    have hrev : (decDigitsAux m m).map Nat.digitChar = ['0'] := by
      have := congrArg List.reverse hdata
      simpa using this
    have hd : decDigitsAux m m = [0] := by
      apply map_digitChar_inj _ _ (decDigitsAux_lt_ten m m) (by intro d hd; simp at hd; omega)
      simpa [Nat.digitChar] using hrev
    have := decVal_decDigitsAux m m (Nat.le_refl m)
    rw [hd] at this
    simp [decVal] at this
    omega
  · rw [if_neg hm, if_neg hn] at h
    injection h with hdata
    have hrev := List.reverse_inj.mpr hdata
    simp only [List.reverse_reverse] at hrev
    have hd := map_digitChar_inj _ _ (decDigitsAux_lt_ten m m) (decDigitsAux_lt_ten n n) hrev
    have h₁ := decVal_decDigitsAux m m (Nat.le_refl m)
    have h₂ := decVal_decDigitsAux n n (Nat.le_refl n)
    rw [hd] at h₁
    omega

theorem doc_pyStrNat_injective : Function.Injective fun n => "doc_" ++ pyStrNat n := by
  intro m n h
  apply pyStrNat_injective
  have hdata : ("doc_" : String).data ++ (pyStrNat m).data
      = ("doc_" : String).data ++ (pyStrNat n).data := by
    have := congrArg String.data h
    simpa using this
  have := List.append_cancel_left hdata
  have : String.mk (pyStrNat m).data = String.mk (pyStrNat n).data := by rw [this]
  simpa using this

/-! ### Data model: documents, metadata, the external vector store -/

/-- A metadata record: a Python `dict[str, str]` as an association list
(the code only ever reads the key `"source"`). -/
abbrev Metadata := List (String × String)

/-- Python `dict.get(key, default)`. -/
def Metadata.getD (m : Metadata) (key dflt : String) : String :=
  (List.lookup key m).getD dflt

/-- One stored document of the ChromaDB collection: its assigned id, its text
and its metadata record, kept parallel as `collection.add` receives them. -/
structure Entry where
  id : String
  text : String
  meta : Metadata
deriving DecidableEq, Repr

/-- The external ChromaDB collection, modelled as the list of stored entries
in insertion order. -/
structure Collection where
  entries : List Entry
deriving DecidableEq, Repr

/-- `collection.count()`. -/
def Collection.size (c : Collection) : Nat := c.entries.length

/-- Zip of parallel `ids`, `documents`, `metadatas` sequences into entries,
as `collection.add(documents=..., metadatas=..., ids=...)` stores them. -/
def zip3Entries : List String → List String → List Metadata → List Entry
  | i :: is, t :: ts, m :: ms => ⟨i, t, m⟩ :: zip3Entries is ts ms
  | _, _, _ => []

/-- `collection.add`: append the batch to the store. -/
def Collection.addBatch (c : Collection) (documents : List String)
    (metadatas : List Metadata) (ids : List String) : Collection :=
  ⟨c.entries ++ zip3Entries ids documents metadatas⟩

/-- Insert an entry into a list sorted by descending similarity score. -/
def insertBySim (sim : Entry → Nat) (e : Entry) : List Entry → List Entry
  | [] => [e]
  | x :: xs => if sim x ≤ sim e then e :: x :: xs else x :: insertBySim sim e xs

/-- Sort the stored entries by descending similarity score. -/
def sortBySim (sim : Entry → Nat) : List Entry → List Entry
  | [] => []
  | x :: xs => insertBySim sim x (sortBySim sim xs)

/-- `collection.query(query_texts=[q], n_results=n)`: the external store
returns the stored entries ordered by descending similarity to the query and
truncated to `n` results.  The similarity score is a parameter of the
embedding, since it comes from the external sentence-embedding model. -/
def Collection.queryTop (c : Collection) (sim : Entry → Nat) (n : Nat) : List Entry :=
  (sortBySim sim c.entries).take n

/-! ### The knowledge-base orchestrator (`src/rag/knowledge_base.py`) -/

/-- One request issued to the external generation service:
`claude.messages.create(model=..., max_tokens=..., system=..., messages=[...])`
with a single user message. -/
structure GenCall where
  model : String
  max_tokens : Nat
  system : String
  user : String
deriving DecidableEq, Repr

/-- The dict returned by `KnowledgeBase.query`. -/
structure QueryResult where
  answer : String
  sources : List String
deriving DecidableEq, Repr

/-- The knowledge base state: the ChromaDB collection it owns. -/
structure KnowledgeBase where
  collection : Collection
deriving DecidableEq, Repr

/-- `KnowledgeBase.count`. -/
def KnowledgeBase.count (kb : KnowledgeBase) : Nat := kb.collection.size

/-- The default metadata comprehension of `add_documents` (line 34):
`[{"source": f"doc_{i}"} for i in range(len(texts))]`. -/
def defaultMetadatas (texts : List String) : List Metadata :=
  (List.range texts.length).map fun i => [("source", "doc_" ++ pyStrNat i)]

/-- The id comprehension of `add_documents` (line 37):
`[f"doc_{self.collection.count() + i}" for i in range(len(texts))]`. -/
def KnowledgeBase.batchIds (kb : KnowledgeBase) (texts : List String) : List String :=
  (List.range texts.length).map fun i => "doc_" ++ pyStrNat (kb.count + i)

/-- `KnowledgeBase.add_documents(texts, metadatas=None)`; `none` models the
omitted `metadatas` argument. -/
def KnowledgeBase.add_documents (kb : KnowledgeBase) (texts : List String)
    (metadatas : Option (List Metadata)) : KnowledgeBase :=
  let metadatas := match metadatas with
    | none => defaultMetadatas texts
    | some ms => ms
  let ids := kb.batchIds texts
  ⟨kb.collection.addBatch texts metadatas ids⟩

/-- Python `sep.join(parts)`. -/
def joinSep (sep : String) : List String → String
  | [] => ""
  | [x] => x
  | x :: y :: ys => x ++ sep ++ joinSep sep (y :: ys)

/-- The retrieval step of `query` (the `results` of `self.collection.query`). -/
def KnowledgeBase.retrieved (kb : KnowledgeBase) (sim : Entry → Nat) (n_results : Nat) :
    List Entry :=
  kb.collection.queryTop sim n_results

/-- The `context_parts` list of `query`: `f"[Source {i+1}]: {doc}"` over the
enumerated retrieval results. -/
def KnowledgeBase.contextParts (kb : KnowledgeBase) (sim : Entry → Nat) (n_results : Nat) :
    List String :=
  (kb.retrieved sim n_results).enum.map fun p =>
    "[Source " ++ pyStrNat (p.1 + 1) ++ "]: " ++ p.2.text

/-- The `sources` list of `query`: `metadata.get('source', f'Source {i+1}')`
over the enumerated retrieval results. -/
def KnowledgeBase.sourceLabels (kb : KnowledgeBase) (sim : Entry → Nat) (n_results : Nat) :
    List String :=
  (kb.retrieved sim n_results).enum.map fun p =>
    Metadata.getD p.2.meta "source" ("Source " ++ pyStrNat (p.1 + 1))

/-- The assembled context: `"\n\n".join(context_parts)`. -/
def KnowledgeBase.contextOf (kb : KnowledgeBase) (sim : Entry → Nat) (n_results : Nat) :
    String :=
  joinSep "\n\n" (kb.contextParts sim n_results)

/-- The fallback answer returned when the assembled context is empty. -/
def fallbackAnswer : String :=
  "I don\x27t have any information about that in my knowledge base."

/-- The fixed system instruction passed to the generation service. -/
def systemPrompt : String :=
  "You are a helpful voice assistant. Answer questions based on the provided context.\n            \nRules:\n- Be conversational and natural - your response will be spoken aloud\n- Keep answers concise (2-4 sentences ideal for voice)\n- If the context doesn\x27t contain the answer, say so briefly\n- Don\x27t use markdown formatting, bullet points, or numbered lists\n- Don\x27t say \"according to the source\" - just answer naturally"

/-- The user message of the generation request (the f-string of line 96). -/
def userMessage (context question : String) : String :=
  "Context:\n" ++ context ++ "\n\nQuestion: " ++ question
    ++ "\n\nProvide a brief, conversational answer suitable for voice output."

/-- `KnowledgeBase.query(question, n_results)`.  `gen` is the external
generation service (`response.content[0].text` as a function of the request);
the second component of the result is the list of requests issued, so that
invocation counts are expressible.  The Python code branches on the truthiness
of `context` (`if not context`), i.e. on `context = ""`. -/
def KnowledgeBase.query (kb : KnowledgeBase) (gen : GenCall → String) (sim : Entry → Nat)
    (question : String) (n_results : Nat) : QueryResult × List GenCall :=
  let context := kb.contextOf sim n_results
  if context = "" then
    (⟨fallbackAnswer, []⟩, [])
  else
    let call : GenCall :=
      ⟨"claude-sonnet-4-20250514", 500, systemPrompt, userMessage context question⟩
    (⟨gen call, kb.sourceLabels sim n_results⟩, [call])

/-! ### Text-to-speech configuration (`src/tts/text_to_speech.py`) -/

/-- The state a successful `TextToSpeech.__init__` establishes: the client's
api key and the current voice name. -/
structure TextToSpeech where
  apiKey : String
  voice : String
deriving DecidableEq, Repr

/-- `TextToSpeech.__init__(voice)`.  `envApiKey` is the environment's value
for `ELEVENLABS_API_KEY` (`none` when the variable is unset).  The code raises
`ValueError` when `not api_key`, i.e. when the value is `None` or the empty
string; the `Except` error carries the exception message. -/
def TextToSpeech.make (envApiKey : Option String) (voice : String) :
    Except String TextToSpeech :=
  match envApiKey with
  | none => Except.error "ELEVENLABS_API_KEY environment variable not set"
  | some k =>
    if k = "" then Except.error "ELEVENLABS_API_KEY environment variable not set"
    else Except.ok ⟨k, voice⟩

/-- The fixed 24-entry voice table of `_get_voice_id`, in source order. -/
def voices : List (String × String) :=
  [ ("Rachel", "21m00Tcm4TlvDq8ikWAM")
  , ("Drew", "29vD33N1CtxCmqQRPOHJ")
  , ("Clyde", "2EiwWnXFnvU5JabPnv8n")
  , ("Paul", "5Q0t7uMcjvnagumLfvZi")
  , ("Domi", "AZnzlk1XvdvUeBnXmlld")
  , ("Dave", "CYw3kZ02Hs0563khs1Fj")
  , ("Fin", "D38z5RcWu1voky8WS1ja")
  , ("Sarah", "EXAVITQu4vr4xnSDxMaL")
  , ("Antoni", "ErXwobaYiN019PkySvjV")
  , ("Thomas", "GBv7mTt0atIp3Br8iCZE")
  , ("Charlie", "IKne3meq5aSn9XLyUdCD")
  , ("George", "JBFqnCBsd6RMkjVDRZzb")
  , ("Emily", "LcfcDJNUP1GQjkzn1xUU")
  , ("Elli", "MF3mGyEYCl7XYWbV9V6O")
  , ("Callum", "N2lVS1w4EtoT3dr4eOWO")
  , ("Patrick", "ODq5zmih8GrVes37Dizd")
  , ("Harry", "SOYHLrjzK2X1ezoPC6cr")
  , ("Liam", "TX3LPaxmHKxFdv7VOQHJ")
  , ("Dorothy", "ThT5KcBeYPX3keUQqHPh")
  , ("Josh", "TxGEqnHWrfWFTfGW9XjX")
  , ("Arnold", "VR6AewLTigWG4xSOukaG")
  , ("Charlotte", "XB0fDUnXU5powFXDhCwa")
  , ("Alice", "Xb7hH8MSUJpSbSDYk0k2")
  , ("Matilda", "XrExE9yKIg1WjnnlVkGX")
  ]

/-- `TextToSpeech._get_voice_id(voice_name)`:
`voices.get(voice_name, voices["Rachel"])`.  `voices["Rachel"]` always
succeeds on the fixed table, so the inner default is never reached. -/
def getVoiceId (voice_name : String) : String :=
  (List.lookup voice_name voices).getD ((List.lookup "Rachel" voices).getD "")

/-! ### Helper lemmas -/

theorem length_insertBySim (sim : Entry → Nat) (e : Entry) :
    ∀ l : List Entry, (insertBySim sim e l).length = l.length + 1 := by
  intro l
  induction l with
  | nil => rfl
  | cons x xs ih =>
    simp only [insertBySim]
    split
    · rfl
    · simp [ih]

theorem length_sortBySim (sim : Entry → Nat) :
    ∀ l : List Entry, (sortBySim sim l).length = l.length := by
  intro l
  induction l with
  | nil => rfl
  | cons x xs ih => simp [sortBySim, length_insertBySim, ih]

theorem retrieved_length (kb : KnowledgeBase) (sim : Entry → Nat) (n : Nat) :
    (kb.retrieved sim n).length = min n kb.count := by
  simp [KnowledgeBase.retrieved, Collection.queryTop, List.length_take, length_sortBySim,
    KnowledgeBase.count, Collection.size]

theorem zip3Entries_maps : ∀ (ids texts : List String) (metas : List Metadata),
    ids.length = texts.length → metas.length = texts.length →
    (zip3Entries ids texts metas).map Entry.id = ids
    ∧ (zip3Entries ids texts metas).map Entry.text = texts
    ∧ (zip3Entries ids texts metas).map Entry.meta = metas := by
  intro ids
  induction ids with
  | nil =>
    intro texts metas h₁ h₂
    cases texts with
    | nil =>
      cases metas with
      | nil => exact ⟨rfl, rfl, rfl⟩
      | cons m ms => simp at h₂
    | cons t ts => simp at h₁
  | cons i is ih =>
    intro texts metas h₁ h₂
    cases texts with
    | nil => simp at h₁
    | cons t ts =>
      cases metas with
      | nil => simp at h₂
      | cons m ms =>
        simp only [List.length_cons, Nat.succ.injEq] at h₁ h₂
        obtain ⟨e₁, e₂, e₃⟩ := ih ts ms h₁ h₂
        exact ⟨by simp [zip3Entries, e₁], by simp [zip3Entries, e₂], by simp [zip3Entries, e₃]⟩

theorem enumFrom_getElem? {α : Type} : ∀ (l : List α) (s i : Nat),
    (l.enumFrom s)[i]? = (l[i]?).map fun a => (s + i, a) := by
  intro l
  induction l with
  | nil => intro s i; simp
  | cons x xs ih =>
    intro s i
    cases i with
    | zero => simp
    | succ j =>
      have hc : (x :: xs).enumFrom s = (s, x) :: xs.enumFrom (s + 1) := rfl
      rw [hc, List.getElem?_cons_succ, List.getElem?_cons_succ, ih (s + 1) j]
      have hsj : s + 1 + j = s + (j + 1) := by omega
      rw [hsj]

theorem joinSep_ne_empty (sep : String) (p : String) (ps : List String)
    (hp : 0 < p.length) : joinSep sep (p :: ps) ≠ "" := by
  cases ps with
  | nil =>
    intro h
    simp only [joinSep] at h
    rw [h] at hp
    simp at hp
  | cons q qs =>
    intro h
    have hl := congrArg String.length h
    simp only [joinSep, String.length_append] at hl
    have h0 : ("" : String).length = 0 := rfl
    rw [h0] at hl
    omega

theorem contextOf_ne_empty (kb : KnowledgeBase) (sim : Entry → Nat) (n : Nat)
    (h : kb.retrieved sim n ≠ []) : kb.contextOf sim n ≠ "" := by
  obtain ⟨e, es, he⟩ := List.exists_cons_of_ne_nil h
  unfold KnowledgeBase.contextOf KnowledgeBase.contextParts
  rw [he]
  have hred : ((e :: es).enum).map (fun p => "[Source " ++ pyStrNat (p.1 + 1) ++ "]: " ++ p.2.text)
      = ("[Source " ++ pyStrNat (0 + 1) ++ "]: " ++ e.text)
        :: (es.enumFrom 1).map (fun p => "[Source " ++ pyStrNat (p.1 + 1) ++ "]: " ++ p.2.text) := rfl
  rw [hred]
  apply joinSep_ne_empty
  rw [String.length_append, String.length_append, String.length_append]
  have h8 : ("[Source " : String).length = 8 := by decide
  omega

theorem contextOf_empty_of_retrieved_nil (kb : KnowledgeBase) (sim : Entry → Nat) (n : Nat)
    (h : kb.retrieved sim n = []) : kb.contextOf sim n = "" := by
  unfold KnowledgeBase.contextOf KnowledgeBase.contextParts
  rw [h]
  rfl

theorem enumFrom_labels_of_some : ∀ (l : List Entry) (s : Nat),
    (∀ e ∈ l, (List.lookup "source" e.meta).isSome) →
    (l.enumFrom s).map (fun p => Metadata.getD p.2.meta "source" ("Source " ++ pyStrNat (p.1 + 1)))
      = l.map fun e => Metadata.getD e.meta "source" "" := by
  intro l
  induction l with
  | nil => intro s _; rfl
  | cons e es ih =>
    intro s h
    obtain ⟨v, hv⟩ := Option.isSome_iff_exists.mp (h e (List.mem_cons_self e es))
    show (Metadata.getD e.meta "source" ("Source " ++ pyStrNat (s + 1)))
        :: (es.enumFrom (s + 1)).map _ = _
    rw [ih (s + 1) (fun x hx => h x (List.mem_cons_of_mem e hx))]
    show _ :: _ = (Metadata.getD e.meta "source" "") :: _
    congr 1
    simp [Metadata.getD, hv]

theorem length_batchIds (kb : KnowledgeBase) (texts : List String) :
    (kb.batchIds texts).length = texts.length := by
  simp [KnowledgeBase.batchIds]

theorem length_defaultMetadatas (texts : List String) :
    (defaultMetadatas texts).length = texts.length := by
  simp [defaultMetadatas]

theorem length_zip3Entries_of (ids texts : List String) (metas : List Metadata)
    (h₁ : ids.length = texts.length) (h₂ : metas.length = texts.length) :
    (zip3Entries ids texts metas).length = texts.length := by
  have hm := (zip3Entries_maps ids texts metas h₁ h₂).1
  have hl := congrArg List.length hm
  rw [List.length_map] at hl
  rw [hl, h₁]

/-! ### Concrete stores used by the witness checks -/

/-- A one-document store with an explicit source label. -/
def kbSample : KnowledgeBase := ⟨⟨[⟨"doc_0", "hello world", [("source", "greeting")]⟩]⟩⟩

/-- A one-document store whose metadata record lacks the `source` key. -/
def kbNoSource : KnowledgeBase := ⟨⟨[⟨"doc_0", "hello world", []⟩]⟩⟩

/-- A constant similarity score. -/
def simZero : Entry → Nat := fun _ => 0

/-- A constant generation service. -/
def genFixed : GenCall → String := fun _ => "generated answer"

/-! ### Claim theorems -/

/-- Claim C1, counterexample: two successive no-metadata batches both get the
synthesized source label `doc_0`, because the default metadata comprehension
uses only the batch-relative offset and ignores the pre-batch count — so
labels from two successive no-metadata batches do repeat, refuting the claim
that the label depends on the pre-batch count and never repeats. -/
theorem default_source_labels_repeat_across_batches :
    ((⟨⟨[]⟩⟩ : KnowledgeBase).add_documents ["first"] none).add_documents ["second"] none
      = ⟨⟨[⟨"doc_0", "first", [("source", "doc_0")]⟩,
           ⟨"doc_1", "second", [("source", "doc_0")]⟩]⟩⟩ := by decide

/-- Claim C1, amended: for every batch of texts added with metadata omitted,
the i-th text is assigned the synthesized metadata record
`{"source": "doc_i"}`, determined solely by the batch-relative offset `i`
(independent of the store's document count before the batch). -/
theorem add_documents_default_source_labels (kb : KnowledgeBase) (texts : List String)
    (h : texts ≠ []) :
    ((kb.add_documents texts none).collection.entries).map Entry.meta
      = kb.collection.entries.map Entry.meta
        ++ (List.range texts.length).map fun i => [("source", "doc_" ++ pyStrNat i)] := by
  show (kb.collection.entries
      ++ zip3Entries (kb.batchIds texts) texts (defaultMetadatas texts)).map Entry.meta = _
  rw [List.map_append]
  congr 1
  exact (zip3Entries_maps _ _ _ (length_batchIds kb texts) (length_defaultMetadatas texts)).2.2

/-- Witness for the amended C1 at a concrete one-text batch. -/
theorem add_documents_default_source_labels_witness :
    (["a"] : List String) ≠ []
    ∧ (((⟨⟨[]⟩⟩ : KnowledgeBase).add_documents ["a"] none).collection.entries).map Entry.meta
      = (⟨⟨[]⟩⟩ : KnowledgeBase).collection.entries.map Entry.meta
        ++ (List.range (["a"] : List String).length).map
            fun i => [("source", "doc_" ++ pyStrNat i)] :=
  ⟨by decide, add_documents_default_source_labels ⟨⟨[]⟩⟩ ["a"] (by decide)⟩

/-- Claim C2: when retrieval returns no documents, `query` returns the fixed
fallback answer with an empty sources list and issues no generation request. -/
theorem query_empty_retrieval_fallback (kb : KnowledgeBase) (gen : GenCall → String)
    (sim : Entry → Nat) (question : String) (n : Nat)
    (h : kb.retrieved sim n = []) :
    kb.query gen sim question n = (⟨fallbackAnswer, []⟩, []) := by
  simp [KnowledgeBase.query, contextOf_empty_of_retrieved_nil kb sim n h]

/-- Witness for C2 on the empty store. -/
theorem query_empty_retrieval_fallback_witness :
    (⟨⟨[]⟩⟩ : KnowledgeBase).retrieved simZero 3 = []
    ∧ (⟨⟨[]⟩⟩ : KnowledgeBase).query genFixed simZero "hello" 3 = (⟨fallbackAnswer, []⟩, []) :=
  ⟨rfl, query_empty_retrieval_fallback ⟨⟨[]⟩⟩ genFixed simZero "hello" 3 rfl⟩

/-- Claim C3: the identifiers assigned to a batch of `n` texts when the store
holds `c` documents are exactly `doc_c, …, doc_{c+n-1}` — contiguous from the
pre-batch count, pairwise distinct, and stored with the batch in order. -/
theorem add_documents_assigned_ids (kb : KnowledgeBase) (texts : List String) :
    (kb.batchIds texts).length = texts.length
    ∧ (∀ i, (kb.batchIds texts)[i]? =
        if i < texts.length then some ("doc_" ++ pyStrNat (kb.count + i)) else none)
    ∧ (kb.batchIds texts).Nodup
    ∧ ((kb.add_documents texts none).collection.entries).map Entry.id
        = kb.collection.entries.map Entry.id ++ kb.batchIds texts := by
  refine ⟨length_batchIds kb texts, ?_, ?_, ?_⟩
  · intro i
    unfold KnowledgeBase.batchIds
    rw [List.getElem?_map]
    by_cases hi : i < texts.length
    · rw [if_pos hi, List.getElem?_range hi]
      rfl
    · rw [if_neg hi]
      have hnone : (List.range texts.length)[i]? = none := by
        rw [List.getElem?_eq_none]
        simpa using Nat.le_of_not_lt hi
      rw [hnone]
      rfl
  · unfold KnowledgeBase.batchIds
    have hinj : Function.Injective fun i : Nat => "doc_" ++ pyStrNat (kb.count + i) := by
      intro a b hab
      have h2 := doc_pyStrNat_injective hab
      omega
    exact (List.nodup_range texts.length).map hinj
  · show (kb.collection.entries
        ++ zip3Entries (kb.batchIds texts) texts (defaultMetadatas texts)).map Entry.id = _
    rw [List.map_append]
    congr 1
    exact (zip3Entries_maps _ _ _ (length_batchIds kb texts) (length_defaultMetadatas texts)).1

/-- Claim C4: the sources list returned by `query` never exceeds the requested
result count and never exceeds the number of documents in the store. -/
theorem query_sources_length_le (kb : KnowledgeBase) (gen : GenCall → String)
    (sim : Entry → Nat) (question : String) (n : Nat) :
    ((kb.query gen sim question n).1.sources).length ≤ min n kb.count := by
  by_cases hc : kb.contextOf sim n = ""
  · simp [KnowledgeBase.query, hc]
  · have hq : (kb.query gen sim question n).1.sources = kb.sourceLabels sim n := by
      simp [KnowledgeBase.query, hc]
    rw [hq, KnowledgeBase.sourceLabels, List.length_map, List.enum_length, retrieved_length]

/-- Claim C6: adding a non-empty batch of texts (with metadata omitted)
increases the document count by exactly the batch length. -/
theorem add_documents_count (kb : KnowledgeBase) (texts : List String) (h : texts ≠ []) :
    (kb.add_documents texts none).count = kb.count + texts.length := by
  show (kb.collection.entries
      ++ zip3Entries (kb.batchIds texts) texts (defaultMetadatas texts)).length
    = kb.collection.entries.length + texts.length
  rw [List.length_append,
    length_zip3Entries_of _ _ _ (length_batchIds kb texts) (length_defaultMetadatas texts)]

/-- Witness for C6 at a concrete one-text batch. -/
theorem add_documents_count_witness :
    (["a"] : List String) ≠ []
    ∧ ((⟨⟨[]⟩⟩ : KnowledgeBase).add_documents ["a"] none).count
      = (⟨⟨[]⟩⟩ : KnowledgeBase).count + (["a"] : List String).length :=
  ⟨by decide, add_documents_count ⟨⟨[]⟩⟩ ["a"] (by decide)⟩

/-- Claim C5: on a store whose retrieval returns at least one document,
`query` issues exactly one generation request, with the fixed model
identifier, the 500-token output ceiling, the fixed system instruction, and a
user message containing the assembled context and the question; the generated
text is returned verbatim as the answer. -/
theorem query_nonempty_invokes_generation_once (kb : KnowledgeBase)
    (gen : GenCall → String) (sim : Entry → Nat) (question : String) (n : Nat)
    (h : kb.retrieved sim n ≠ []) :
    ∃ call : GenCall,
      (kb.query gen sim question n).2 = [call]
      ∧ call.model = "claude-sonnet-4-20250514"
      ∧ call.max_tokens = 500
      ∧ call.system = systemPrompt
      ∧ call.user = userMessage (kb.contextOf sim n) question
      ∧ (∃ a b, call.user = a ++ kb.contextOf sim n ++ b)
      ∧ (∃ a b, call.user = a ++ question ++ b)
      ∧ (kb.query gen sim question n).1.answer = gen call := by
  have hc := contextOf_ne_empty kb sim n h
  refine ⟨⟨"claude-sonnet-4-20250514", 500, systemPrompt,
      userMessage (kb.contextOf sim n) question⟩, ?_, rfl, rfl, rfl, rfl, ?_, ?_, ?_⟩
  · simp [KnowledgeBase.query, hc]
  · refine ⟨"Context:\n", "\n\nQuestion: " ++ question
      ++ "\n\nProvide a brief, conversational answer suitable for voice output.", ?_⟩
    simp [userMessage, String.append_assoc]
  · refine ⟨"Context:\n" ++ kb.contextOf sim n ++ "\n\nQuestion: ",
      "\n\nProvide a brief, conversational answer suitable for voice output.", rfl⟩
  · simp [KnowledgeBase.query, hc]

/-- Witness for C5 on a concrete one-document store. -/
theorem query_nonempty_invokes_generation_once_witness :
    kbSample.retrieved simZero 3 ≠ []
    ∧ ∃ call : GenCall,
      (kbSample.query genFixed simZero "what" 3).2 = [call]
      ∧ call.model = "claude-sonnet-4-20250514"
      ∧ call.max_tokens = 500
      ∧ call.system = systemPrompt
      ∧ call.user = userMessage (kbSample.contextOf simZero 3) "what"
      ∧ (∃ a b, call.user = a ++ kbSample.contextOf simZero 3 ++ b)
      ∧ (∃ a b, call.user = a ++ "what" ++ b)
      ∧ (kbSample.query genFixed simZero "what" 3).1.answer = genFixed call :=
  ⟨by decide, query_nonempty_invokes_generation_once kbSample genFixed simZero "what" 3 (by decide)⟩

/-- Claim C7: the assembled context is the `"\n\n"`-joined list of lines
`[Source k]: text` with `k` numbered from 1 in retrieval order, and the
returned sources list carries the retrieved documents' source labels in that
same order (when every retrieved metadata record has a source key). -/
theorem query_context_assembly (kb : KnowledgeBase) (gen : GenCall → String)
    (sim : Entry → Nat) (question : String) (n : Nat)
    (hne : kb.retrieved sim n ≠ [])
    (hsrc : ∀ e ∈ kb.retrieved sim n, (List.lookup "source" e.meta).isSome) :
    (∀ i e, (kb.retrieved sim n)[i]? = some e →
        (kb.contextParts sim n)[i]? = some ("[Source " ++ pyStrNat (i + 1) ++ "]: " ++ e.text))
    ∧ kb.contextOf sim n = joinSep "\n\n" (kb.contextParts sim n)
    ∧ (kb.query gen sim question n).1.sources
        = (kb.retrieved sim n).map fun e => Metadata.getD e.meta "source" "" := by
  refine ⟨?_, rfl, ?_⟩
  · intro i e he
    unfold KnowledgeBase.contextParts
    have h0 : (kb.retrieved sim n).enum = (kb.retrieved sim n).enumFrom 0 := rfl
    rw [List.getElem?_map, h0, enumFrom_getElem?, he]
    simp
  · have hc := contextOf_ne_empty kb sim n hne
    have hq : (kb.query gen sim question n).1.sources = kb.sourceLabels sim n := by
      simp [KnowledgeBase.query, hc]
    have h0 : (kb.retrieved sim n).enum = (kb.retrieved sim n).enumFrom 0 := rfl
    rw [hq, KnowledgeBase.sourceLabels, h0]
    exact enumFrom_labels_of_some _ 0 hsrc

/-- Witness for C7 on a concrete one-document store. -/
theorem query_context_assembly_witness :
    kbSample.retrieved simZero 3 ≠ []
    ∧ (∀ e ∈ kbSample.retrieved simZero 3, (List.lookup "source" e.meta).isSome)
    ∧ ((∀ i e, (kbSample.retrieved simZero 3)[i]? = some e →
        (kbSample.contextParts simZero 3)[i]?
          = some ("[Source " ++ pyStrNat (i + 1) ++ "]: " ++ e.text))
      ∧ kbSample.contextOf simZero 3 = joinSep "\n\n" (kbSample.contextParts simZero 3)
      ∧ (kbSample.query genFixed simZero "what" 3).1.sources
          = (kbSample.retrieved simZero 3).map fun e => Metadata.getD e.meta "source" "") :=
  ⟨by decide, by decide,
    query_context_assembly kbSample genFixed simZero "what" 3 (by decide) (by decide)⟩

/-- Claim C10: a retrieved document whose metadata lacks the source key
contributes the positional placeholder `Source i` (1-based) to the returned
sources list. -/
theorem query_missing_source_placeholder (kb : KnowledgeBase) (gen : GenCall → String)
    (sim : Entry → Nat) (question : String) (n : Nat) (i : Nat) (e : Entry)
    (hi : (kb.retrieved sim n)[i]? = some e)
    (hnone : List.lookup "source" e.meta = none) :
    ((kb.query gen sim question n).1.sources)[i]? = some ("Source " ++ pyStrNat (i + 1)) := by
  have hne : kb.retrieved sim n ≠ [] := by
    intro hnil
    rw [hnil] at hi
    simp at hi
  have hc := contextOf_ne_empty kb sim n hne
  have hq : (kb.query gen sim question n).1.sources = kb.sourceLabels sim n := by
    simp [KnowledgeBase.query, hc]
  have h0 : (kb.retrieved sim n).enum = (kb.retrieved sim n).enumFrom 0 := rfl
  rw [hq, KnowledgeBase.sourceLabels, h0, List.getElem?_map, enumFrom_getElem?, hi]
  simp [Metadata.getD, hnone]

/-- Witness for C10 on a store whose only document has no source key. -/
theorem query_missing_source_placeholder_witness :
    (kbNoSource.retrieved simZero 3)[0]? = some ⟨"doc_0", "hello world", []⟩
    ∧ List.lookup "source" (⟨"doc_0", "hello world", []⟩ : Entry).meta = none
    ∧ ((kbNoSource.query genFixed simZero "what" 3).1.sources)[0]?
        = some ("Source " ++ pyStrNat (0 + 1)) :=
  ⟨by decide, by decide,
    query_missing_source_placeholder kbNoSource genFixed simZero "what" 3 0
      ⟨"doc_0", "hello world", []⟩ (by decide) (by decide)⟩

/-- Claim C8: the fixed voice table has 24 entries mapping to pairwise
distinct provider identifiers, the lookup returns each table entry's own
identifier, and every name outside the table — the empty string included —
maps to the same identifier as the primary voice Rachel. -/
theorem getVoiceId_table (name : String) (h : List.lookup name voices = none) :
    voices.length = 24
    ∧ (voices.map Prod.snd).Nodup
    ∧ (∀ p ∈ voices, getVoiceId p.1 = p.2)
    ∧ getVoiceId name = getVoiceId "Rachel"
    ∧ getVoiceId "" = getVoiceId "Rachel" := by
  refine ⟨by decide, by decide, by decide, ?_, by decide⟩
  unfold getVoiceId
  rw [h]
  decide

/-- Witness for C8 at a concrete name outside the table. -/
theorem getVoiceId_table_witness :
    List.lookup "Bob" voices = none
    ∧ (voices.length = 24
      ∧ (voices.map Prod.snd).Nodup
      ∧ (∀ p ∈ voices, getVoiceId p.1 = p.2)
      ∧ getVoiceId "Bob" = getVoiceId "Rachel"
      ∧ getVoiceId "" = getVoiceId "Rachel") :=
  ⟨by decide, getVoiceId_table "Bob" (by decide)⟩

/-- Whether `TextToSpeech.__init__` succeeded (did not raise). -/
def constructionSucceeds (envApiKey : Option String) (voice : String) : Bool :=
  match TextToSpeech.make envApiKey voice with
  | Except.ok _ => true
  | Except.error _ => false

/-- Claim C9, counterexample: with `ELEVENLABS_API_KEY` present but set to the
empty string, the constructor raises (`if not api_key` is true for `""`),
refuting the claim that a present credential always makes construction
succeed. -/
theorem make_present_empty_key_raises :
    constructionSucceeds (some "") "Rachel" = false := by decide

/-- Claim C9, amended: construction raises exactly when the credential is
absent or empty; with a present non-empty credential it succeeds without
raising. -/
theorem make_key_validation (voice k : String) (hk : k ≠ "") :
    constructionSucceeds none voice = false
    ∧ constructionSucceeds (some k) voice = true
    ∧ constructionSucceeds (some "") voice = false := by
  refine ⟨rfl, ?_, rfl⟩
  simp [constructionSucceeds, TextToSpeech.make, hk]

/-- Witness for the amended C9 at a concrete non-empty key. -/
theorem make_key_validation_witness :
    ("sk-test" : String) ≠ ""
    ∧ (constructionSucceeds none "Rachel" = false
      ∧ constructionSucceeds (some "sk-test") "Rachel" = true
      ∧ constructionSucceeds (some "") "Rachel" = false) :=
  ⟨by decide, make_key_validation "Rachel" "sk-test" (by decide)⟩

end VoiceRag
